import Mathlib

/-!
Verification of the SecureScan dashboard client (`src/pages/Index.tsx`)
and of the scan-orchestration core its specification describes.

The client code is embedded shallowly: React state becomes an explicit
`ClientState` record, the `handleScan` event handler becomes a pure state
transformer parameterised by the outcome of the backend `fetch` call, and
JavaScript string trimming is modelled over the character list.  Components
of the orchestration service that exist only in the specification (the
Target Validator, the Tool Adapters, the Scan Coordinator) are modelled
from the specification text and marked as such in their doc comments.
-/

namespace ScanSense

/-- JavaScript `String.prototype.trim` over a character list: drop
whitespace from the front, then from the back. -/
def trimLeftList (l : List Char) : List Char :=
  l.dropWhile Char.isWhitespace

/-- Drop trailing whitespace: reverse, drop leading, reverse back. -/
def trimRightList (l : List Char) : List Char :=
  (trimLeftList l.reverse).reverse

/-- Model of JavaScript `target.trim()` as used throughout `handleScan`. -/
def jsTrim (s : String) : String :=
  ⟨trimRightList (trimLeftList s.data)⟩

/-- The record shape of the client's `ScanResult` interface: a single
structure whose fields are all optional, exactly as declared at
`src/pages/Index.tsx` lines 12-21. -/
structure ScanResult where
  port : Option String := none
  state : Option String := none
  service : Option String := none
  severity : Option String := none
  url : Option String := none
  description : Option String := none
  endpoint : Option String := none
  title : Option String := none
  deriving DecidableEq, Repr

/-- `generateDemoResults` from `src/pages/Index.tsx`: canned sample data
selected by the scan-type string alone; unknown types yield the empty
list. -/
def generateDemoResults (type : String) : List ScanResult :=
  match type with
  | "nmap" =>
      [ { port := some "22", state := some "open", service := some "ssh" },
        { port := some "80", state := some "open", service := some "http" },
        { port := some "443", state := some "open", service := some "https" },
        { port := some "3306", state := some "filtered", service := some "mysql" } ]
  | "nuclei" =>
      [ { title := some "SSL Certificate Expiry Warning",
          severity := some "medium",
          url := some "https://example.com",
          description := some "SSL certificate expires within 30 days" },
        { title := some "Directory Listing Enabled",
          severity := some "low",
          url := some "https://example.com/assets/",
          description := some "Directory listing is enabled and may expose sensitive files" },
        { title := some "Missing Security Headers",
          severity := some "medium",
          url := some "https://example.com",
          description := some "Missing X-Frame-Options header" } ]
  | "nikto" =>
      [ { description := some "Server leaks inodes via ETags, header found with file /, inode: 12345, size: 4096, mtime: Mon Dec 25 10:23:45 2023",
          endpoint := some "/" },
        { description := some "The anti-clickjacking X-Frame-Options header is not present.",
          endpoint := some "/" },
        { description := some "Web server returns a valid response with junk HTTP methods, this may cause false positives.",
          endpoint := some "/" } ]
  | _ => []

/-- `getSeverityColor` from `src/pages/Index.tsx`: badge style classes per
severity string, with a gray default for anything unrecognised. -/
def getSeverityColor (severity : String) : String :=
  match severity with
  | "critical" => "bg-red-500/20 text-red-300 border-red-500/30"
  | "high" => "bg-orange-500/20 text-orange-300 border-orange-500/30"
  | "medium" => "bg-yellow-500/20 text-yellow-300 border-yellow-500/30"
  | "low" => "bg-blue-500/20 text-blue-300 border-blue-500/30"
  | _ => "bg-gray-500/20 text-gray-300 border-gray-500/30"

/-- `getPortStateColor` from `src/pages/Index.tsx`. -/
def getPortStateColor (state : String) : String :=
  match state with
  | "open" => "text-green-400"
  | "closed" => "text-red-400"
  | "filtered" => "text-yellow-400"
  | _ => "text-gray-400"

/-- The severity badge class the Nuclei results card computes for a
finding: the JSX passes `result.severity || ''` to `getSeverityColor`. -/
def severityClassOf (r : ScanResult) : String :=
  getSeverityColor (r.severity.getD "")

/-- `lastScanInfo` record: scan type, trimmed target, and a timestamp
(modelled as a natural number). -/
structure ScanInfo where
  type : String
  target : String
  timestamp : Nat
  deriving DecidableEq, Repr

/-- A toast notification as raised through `useToast`. -/
structure Toast where
  title : String
  description : String
  variant : Option String := none
  deriving DecidableEq, Repr

/-- The HTTP request `handleScan` issues: a POST to the `/scan` path with
a JSON body holding exactly the trimmed target and the scan type. -/
structure ScanRequest where
  method : String
  path : String
  target : String
  type : String
  deriving DecidableEq, Repr

/-- Outcome of the backend `fetch` call, seen from `handleScan`:
a 2xx response whose JSON body optionally carries a `result` array, a
non-OK HTTP status (which `handleScan` turns into a thrown error), a
network failure, or the 10-second `AbortController` timeout firing. -/
inductive FetchOutcome where
  | success (result : Option (List ScanResult))
  | httpError (status : Nat)
  | networkError
  | timeoutAbort
  deriving DecidableEq, Repr

/-- Every non-2xx outcome lands in `handleScan`'s catch block. -/
def fetchFails : FetchOutcome → Bool
  | .success _ => false
  | _ => true

/-- The React component state of `Index` relevant to scanning. -/
structure ClientState where
  target : String
  scanType : String
  isScanning : Bool
  scanResults : List ScanResult
  lastScanInfo : Option ScanInfo
  backendConnected : Bool
  toasts : List Toast
  deriving DecidableEq, Repr

/-- The initial component state set up by the `useState` calls. -/
def initialState : ClientState :=
  { target := ""
    scanType := "nmap"
    isScanning := false
    scanResults := []
    lastScanInfo := none
    backendConnected := false
    toasts := [] }

/-- The scan-type values offered by the scan-type `select` element. -/
def scanTypeOptions : List String := ["nmap", "nuclei", "nikto"]

/-- `handleScan` from `src/pages/Index.tsx` as a pure state transformer.
The backend call's outcome and the current time are parameters; the
result is the final component state together with the request issued
(`none` when the empty-target guard returns early).  The success branch
stores `data.result || []`, records `lastScanInfo`, marks the backend
connected and toasts a completion message; the catch branch toasts a
destructive warning, stores `generateDemoResults(scanType)`, marks the
backend disconnected and records `lastScanInfo` all the same; the
`finally` block clears `isScanning` on both paths. -/
def handleScan (s : ClientState) (outcome : FetchOutcome) (now : Nat) :
    ClientState × Option ScanRequest :=
  if jsTrim s.target = "" then (s, none)
  else
    let req : ScanRequest :=
      { method := "POST", path := "/scan",
        target := jsTrim s.target, type := s.scanType }
    let s1 := { s with isScanning := true, scanResults := [] }
    let s2 :=
      match outcome with
      | .success r =>
          { s1 with
              scanResults := r.getD []
              backendConnected := true
              lastScanInfo := some ⟨s.scanType, jsTrim s.target, now⟩
              toasts := s1.toasts ++
                [({ title := "Scan completed",
                    description :=
                      "Found " ++ toString (r.getD []).length ++ " results"
                    : Toast })] }
      | _ =>
          { s1 with
              scanResults := generateDemoResults s.scanType
              backendConnected := false
              lastScanInfo := some ⟨s.scanType, jsTrim s.target, now⟩
              toasts := s1.toasts ++
                [({ title := "Backend unavailable",
                    description :=
                      "Using demo data. Connect your backend for real scans.",
                    variant := some "destructive" : Toast })] }
    ({ s2 with isScanning := false }, some req)

/-- Lower-casing of a host string, defined character-wise. -/
def lowerStr (s : String) : String :=
  ⟨s.data.map Char.toLower⟩

/-- Modelled from the spec: the `kind` tag of a ValidatedTarget
(Hostname, IPv4 or IPv6); the Target Validator component is not part of
the visible client code. -/
inductive TargetKind where
  | Hostname
  | IPv4
  | IPv6
  deriving DecidableEq, Repr

/-- Modelled from the spec: a target string after normalization (trimmed,
lower-cased host) plus its kind tag. -/
structure ValidatedTarget where
  host : String
  kind : TargetKind
  deriving DecidableEq, Repr

/-- Modelled from the spec: the structured error the Target Validator
fails with, carrying a reason. -/
structure InvalidTargetError where
  reason : String
  deriving DecidableEq, Repr

/-- The character class the spec allows in a target: letters, digits,
dot, colon and hyphen. -/
def allowedTargetChar (c : Char) : Bool :=
  c.isAlpha || c.isDigit || c == '.' || c == ':' || c == '-'

/-- Split a character list at every occurrence of a separator character,
keeping empty components, as `String.split` on that separator does. -/
def splitOnChar (sep : Char) : List Char → List (List Char)
  | [] => [[]]
  | c :: rest =>
      let r := splitOnChar sep rest
      if c = sep then [] :: r
      else
        match r with
        | [] => [[c]]
        | h :: t => (c :: h) :: t

/-- Split a string at a single-character separator. -/
def strSplit (sep : Char) (s : String) : List String :=
  (splitOnChar sep s.data).map (⟨·⟩)

/-- Numeric value of a digit list, most significant first. -/
def digitsVal (l : List Char) : Nat :=
  l.foldl (fun n c => n * 10 + (c.toNat - 48)) 0

/-- Decimal parse of a string: every character a digit, non-empty. -/
def strToNat (s : String) : Option Nat :=
  if s.data ≠ [] && s.data.all Char.isDigit then some (digitsVal s.data)
  else none

/-- One dotted-decimal IPv4 component: one to three digits, value at
most 255. -/
def isIPv4Part (p : String) : Bool :=
  decide (p.data ≠ []) && decide (p.data.length ≤ 3) &&
    p.data.all Char.isDigit && decide (((strToNat p).getD 256) ≤ 255)

/-- Syntactically valid dotted-decimal IPv4 address. -/
def isIPv4 (s : String) : Bool :=
  let parts := strSplit '.' s
  decide (parts.length = 4) && parts.all isIPv4Part

/-- Hexadecimal digit after lower-casing. -/
def isHexChar (c : Char) : Bool :=
  c.isDigit || (decide ('a' ≤ c) && decide (c ≤ 'f'))

/-- Loose syntactic check for an IPv6 address: colon-separated groups of
at most four hex digits, at most eight non-empty groups. -/
def isIPv6 (s : String) : Bool :=
  let groups := strSplit ':' s
  decide (groups.length ≤ 9) &&
    groups.all (fun g => decide (g.data.length ≤ 4) && g.data.all isHexChar) &&
    decide ((groups.filter (fun g => g.data ≠ [])).length ≤ 8)

/-- One DNS label: non-empty, at most 63 characters, alphanumeric or
hyphen, neither starting nor ending with a hyphen. -/
def isHostLabel (l : String) : Bool :=
  decide (l.data ≠ []) && decide (l.data.length ≤ 63) &&
    l.data.all (fun c => c.isAlphanum || c == '-') &&
    decide (l.data.head? ≠ some '-') && decide (l.data.getLast? ≠ some '-')

/-- Syntactically valid DNS hostname: total length at most 253, every
dot-separated label valid. -/
def isHostname (s : String) : Bool :=
  decide (s.data.length ≤ 253) && (strSplit '.' s).all isHostLabel

/-- Modelled from the spec: `validate(raw) -> ValidatedTarget | fails
with InvalidTargetError` of the Target Validator, a component absent
from the visible client code.  It normalizes (trim, lower-case),
rejects empty or whitespace-only input, rejects any character outside
the allowed class, then classifies the target as IPv4, IPv6 or
hostname, failing otherwise. -/
def validate (raw : String) : Except InvalidTargetError ValidatedTarget :=
  let t := lowerStr (jsTrim raw)
  if t = "" then .error ⟨"empty or whitespace-only target"⟩
  else if !(t.data.all allowedTargetChar) then
    .error ⟨"target contains a forbidden character"⟩
  else if isIPv4 t then .ok ⟨t, .IPv4⟩
  else if t.data.contains ':' then
    if isIPv6 t then .ok ⟨t, .IPv6⟩ else .error ⟨"malformed IPv6 address"⟩
  else if isHostname t then .ok ⟨t, .Hostname⟩
  else .error ⟨"malformed hostname"⟩

/-- Modelled from the spec: the Scan Coordinator short-circuits on
validation failure before any subprocess is spawned, so the Scan
Executor only ever sees targets on which `validate` succeeded. -/
def executorTarget (raw : String) : Option String :=
  match validate raw with
  | .ok v => some v.host
  | .error _ => none

/-- Modelled from the spec: the closed scan-kind enum. -/
inductive ScanKind where
  | PortScan
  | WebVulnScan
  | MisconfigScan
  deriving DecidableEq, Repr

/-- The mapping from the wire scan-type strings to scan kinds, per the
closed enum of the service boundary. -/
def scanKindOf (type : String) : Option ScanKind :=
  match type with
  | "nmap" => some .PortScan
  | "nuclei" => some .WebVulnScan
  | "nikto" => some .MisconfigScan
  | _ => none

/-- Modelled from the spec: the state of one port in a port-scan
finding; unknown state tokens map to `Unknown`, not an error. -/
inductive PortState where
  | Open
  | Closed
  | Filtered
  | Unknown
  deriving DecidableEq, Repr

/-- Modelled from the spec: a normalized port-scan finding. -/
structure PortFinding where
  port : Nat
  state : PortState
  service : String
  deriving DecidableEq, Repr

/-- Modelled from the spec: a port-scan ScanResult — the ordered finding
list plus metadata including the tool exit code. -/
structure PortScanOutcome where
  findings : List PortFinding
  scanKind : ScanKind
  target : String
  startedAt : Nat
  durationMs : Nat
  toolExitCode : Int
  deriving DecidableEq, Repr

/-- State-token mapping of the port-scan adapter. -/
def parsePortState (tok : String) : PortState :=
  match tok with
  | "open" => .Open
  | "closed" => .Closed
  | "filtered" => .Filtered
  | _ => .Unknown

/-- Modelled from the spec: the port-scan adapter parses one structured
output line `port/state/service` into a finding; the port must be an
integer in 1..65535. -/
def parsePortLine (line : String) : Option PortFinding :=
  match strSplit '/' line with
  | [p, st, sv] =>
      match strToNat p with
      | some n =>
          if 1 ≤ n ∧ n ≤ 65535 then some ⟨n, parsePortState st, sv⟩ else none
      | none => none
  | _ => none

/-- Modelled from the spec: the port-scan adapter's `parse` over the
captured output lines — malformed lines are skipped, the emission order
is preserved, and the tool exit code is recorded in the metadata. -/
def portScanParse (lines : List String) (exitCode : Int) (target : String)
    (startedAt durationMs : Nat) : PortScanOutcome :=
  { findings := lines.filterMap parsePortLine
    scanKind := .PortScan
    target := target
    startedAt := startedAt
    durationMs := durationMs
    toolExitCode := exitCode }

/-! Helper lemmas about trimming. -/

theorem mem_dropWhile_of_mem {α} {p : α → Bool} {c : α} :
    ∀ {l : List α}, c ∈ l → p c = false → c ∈ l.dropWhile p := by
  intro l hmem hpc
  induction l with
  | nil => cases hmem
  | cons a t ih =>
      rw [List.dropWhile_cons]
      by_cases hpa : p a = true
      · rw [if_pos hpa]
        rcases List.mem_cons.mp hmem with h | h
        · subst h; rw [hpa] at hpc; cases hpc
        · exact ih h
      · rw [if_neg hpa]
        exact hmem

theorem length_dropWhile_le_self {α} (p : α → Bool) (l : List α) :
    (l.dropWhile p).length ≤ l.length :=
  ((List.dropWhile_suffix p).sublist).length_le

theorem dropWhile_eq_self_of_leading {α} {p : α → Bool} :
    ∀ {d q : List α}, d.dropWhile p = d → q <+: d → q.dropWhile p = q := by
  intro d q hd hpre
  cases q with
  | nil => simp
  | cons a t =>
      obtain ⟨r, hr⟩ := hpre
      have hpa : p a = false := by
        by_contra hcon
        have hpa' : p a = true := by
          cases h : p a
          · exact absurd h hcon
          · rfl
        subst hr
        rw [List.cons_append, List.dropWhile_cons, if_pos hpa'] at hd
        have hlen := length_dropWhile_le_self p (t ++ r)
        rw [hd] at hlen
        simp at hlen
      rw [List.dropWhile_cons, if_neg (by simp [hpa])]

/-- A character of the raw string that is not whitespace survives
JavaScript trimming. -/
theorem mem_jsTrim_of_mem {c : Char} {s : String} (hmem : c ∈ s.data)
    (hws : c.isWhitespace = false) : c ∈ (jsTrim s).data := by
  have h1 : c ∈ trimLeftList s.data := mem_dropWhile_of_mem hmem hws
  have h2 : c ∈ (trimLeftList s.data).reverse := List.mem_reverse.mpr h1
  have h3 : c ∈ trimLeftList (trimLeftList s.data).reverse :=
    mem_dropWhile_of_mem h2 hws
  show c ∈ (trimLeftList (trimLeftList s.data).reverse).reverse
  exact List.mem_reverse.mpr h3

theorem trimLeftList_idem (l : List Char) :
    trimLeftList (trimLeftList l) = trimLeftList l :=
  List.dropWhile_idempotent _ _

/-- Right-trimming preserves the absence of leading whitespace. -/
theorem trimLeftList_trimRightList {d : List Char}
    (hd : trimLeftList d = d) :
    trimLeftList (trimRightList d) = trimRightList d := by
  apply dropWhile_eq_self_of_leading hd
  have hsuf : trimLeftList d.reverse <:+ d.reverse := List.dropWhile_suffix _
  have hpre := ( List.reverse_prefix).mpr hsuf
  rw [List.reverse_reverse] at hpre
  exact hpre

theorem trimRightList_idem (d : List Char) :
    trimRightList (trimRightList d) = trimRightList d := by
  show (trimLeftList ((trimLeftList d.reverse).reverse).reverse).reverse
      = (trimLeftList d.reverse).reverse
  rw [List.reverse_reverse, trimLeftList_idem]

/-- JavaScript trimming is idempotent: trimming an already-trimmed
string changes nothing. -/
theorem jsTrim_idem (s : String) : jsTrim (jsTrim s) = jsTrim s := by
  show (⟨trimRightList (trimLeftList (trimRightList (trimLeftList s.data)))⟩ : String)
      = ⟨trimRightList (trimLeftList s.data)⟩
  rw [trimLeftList_trimRightList (trimLeftList_idem s.data),
    trimRightList_idem]

/-! Characterization of the two paths through handleScan. -/

/-- The catch path of `handleScan`: any failing fetch outcome yields the
demo-data state, with the request still having been issued. -/
theorem handleScan_catch_state (s : ClientState) (outcome : FetchOutcome)
    (now : Nat) (hfail : fetchFails outcome = true)
    (hne : jsTrim s.target ≠ "") :
    (handleScan s outcome now).1 =
      { s with isScanning := false
               scanResults := generateDemoResults s.scanType
               backendConnected := false
               lastScanInfo := some ⟨s.scanType, jsTrim s.target, now⟩
               toasts := s.toasts ++
                 [⟨"Backend unavailable",
                   "Using demo data. Connect your backend for real scans.",
                   some "destructive"⟩] } ∧
    (handleScan s outcome now).2 =
      some ⟨"POST", "/scan", jsTrim s.target, s.scanType⟩ := by
  unfold handleScan
  rw [if_neg hne]
  cases outcome with
  | success r => simp [fetchFails] at hfail
  | httpError status => exact ⟨rfl, rfl⟩
  | networkError => exact ⟨rfl, rfl⟩
  | timeoutAbort => exact ⟨rfl, rfl⟩

/-- The success path of `handleScan`: a 2xx response stores the body's
`result` field (empty when absent) and records the completed scan. -/
theorem handleScan_success_state (s : ClientState)
    (r : Option (List ScanResult)) (now : Nat)
    (hne : jsTrim s.target ≠ "") :
    (handleScan s (.success r) now).1 =
      { s with isScanning := false
               scanResults := r.getD []
               backendConnected := true
               lastScanInfo := some ⟨s.scanType, jsTrim s.target, now⟩
               toasts := s.toasts ++
                 [⟨"Scan completed",
                   "Found " ++ toString (r.getD []).length ++ " results",
                   none⟩] } ∧
    (handleScan s (.success r) now).2 =
      some ⟨"POST", "/scan", jsTrim s.target, s.scanType⟩ := by
  unfold handleScan
  rw [if_neg hne]
  exact ⟨rfl, rfl⟩

/-! Validator helper lemmas. -/

theorem validate_error_of_empty (raw : String) (h : jsTrim raw = "") :
    validate raw = .error ⟨"empty or whitespace-only target"⟩ := by
  unfold validate
  rw [h]
  rfl

theorem validate_error_of_bad_char (raw : String) (c : Char)
    (hc : c ∈ (lowerStr (jsTrim raw)).data)
    (hbad : allowedTargetChar c = false) :
    validate raw = .error ⟨"target contains a forbidden character"⟩ := by
  have hne : lowerStr (jsTrim raw) ≠ "" := by
    intro h0
    rw [h0] at hc
    simp at hc
  have hall : (lowerStr (jsTrim raw)).data.all allowedTargetChar = false := by
    cases hall : (lowerStr (jsTrim raw)).data.all allowedTargetChar
    · rfl
    · exfalso
      have := List.all_eq_true.mp hall c hc
      rw [hbad] at this
      cases this
  unfold validate
  rw [if_neg hne, hall]
  rfl

/-- A character of the raw target that is not whitespace and is mapped
to itself by lower-casing appears in the normalized target string. -/
theorem mem_normalized_of_mem {c : Char} {raw : String} (hmem : c ∈ raw.data)
    (hws : c.isWhitespace = false) (hlow : Char.toLower c = c) :
    c ∈ (lowerStr (jsTrim raw)).data := by
  have h1 : c ∈ (jsTrim raw).data := mem_jsTrim_of_mem hmem hws
  show c ∈ (jsTrim raw).data.map Char.toLower
  exact List.mem_map.mpr ⟨c, h1, hlow⟩

/-! Claim theorems. -/

/-- Claim C1: for every scan attempt whose backend call fails (network
error, timeout abort, or non-OK HTTP status), `handleScan` replaces the
failure with canned sample data: it sets `scanResults` to
`generateDemoResults scanType` and records `lastScanInfo` as if the
scan had completed. -/
theorem handleScan_demo_fallback (s : ClientState) (outcome : FetchOutcome)
    (now : Nat) (hfail : fetchFails outcome = true)
    (hne : jsTrim s.target ≠ "") :
    ((handleScan s outcome now).1).scanResults =
      generateDemoResults s.scanType ∧
    ((handleScan s outcome now).1).lastScanInfo =
      some ⟨s.scanType, jsTrim s.target, now⟩ := by
  rw [(handleScan_catch_state s outcome now hfail hne).1]
  exact ⟨rfl, rfl⟩

theorem handleScan_demo_fallback_witness :
    ((handleScan { initialState with target := " example.com " }
        FetchOutcome.networkError 7).1).scanResults =
      generateDemoResults "nmap" ∧
    ((handleScan { initialState with target := " example.com " }
        FetchOutcome.networkError 7).1).lastScanInfo =
      some ⟨"nmap", "example.com", 7⟩ :=
  handleScan_demo_fallback { initialState with target := " example.com " }
    FetchOutcome.networkError 7 (by decide) (by decide)

/-- Claim C2: target validation rejects empty or whitespace-only input
and rejects any normalized target containing a character outside the
class of letters, digits, dot, colon and hyphen; in particular, for
every target containing a shell metacharacter (semicolon, pipe,
backtick, dollar) validation fails with an `InvalidTargetError` and the
Scan Executor is never handed that target. -/
theorem validate_rejects_unsafe_targets (raw : String) :
    (jsTrim raw = "" →
      validate raw = .error ⟨"empty or whitespace-only target"⟩) ∧
    (∀ c ∈ (lowerStr (jsTrim raw)).data, allowedTargetChar c = false →
      validate raw = .error ⟨"target contains a forbidden character"⟩) ∧
    (∀ c ∈ raw.data, (c = ';' ∨ c = '|' ∨ c = Char.ofNat 96 ∨ c = '$') →
      (∃ e, validate raw = .error e) ∧ executorTarget raw = none) := by
  refine ⟨validate_error_of_empty raw,
    fun c hc hbad => validate_error_of_bad_char raw c hc hbad, ?_⟩
  intro c hcmem hmeta
  have hws : c.isWhitespace = false := by
    rcases hmeta with rfl | rfl | rfl | rfl <;> decide
  have hlow : Char.toLower c = c := by
    rcases hmeta with rfl | rfl | rfl | rfl <;> decide
  have hbad : allowedTargetChar c = false := by
    rcases hmeta with rfl | rfl | rfl | rfl <;> decide
  have herr := validate_error_of_bad_char raw c
    (mem_normalized_of_mem hcmem hws hlow) hbad
  refine ⟨⟨_, herr⟩, ?_⟩
  unfold executorTarget
  rw [herr]

theorem validate_rejects_unsafe_targets_witness :
    validate "   " = .error ⟨"empty or whitespace-only target"⟩ ∧
    ((∃ e, validate "exa;mple.com" = .error e) ∧
      executorTarget "exa;mple.com" = none) :=
  ⟨(validate_rejects_unsafe_targets "   ").1 (by decide),
   (validate_rejects_unsafe_targets "exa;mple.com").2.2 ';' (by decide)
     (Or.inl rfl)⟩

/-- Claim C3: every scan submission is a POST to the `/scan` path whose
body is exactly the trimmed target and the selected scan kind, the scan
kind being one of the three select options; on a 2xx response the
displayed results are the body's `result` field, defaulting to the
empty list when that field is absent. -/
theorem handleScan_request_contract (s : ClientState)
    (outcome : FetchOutcome) (r : Option (List ScanResult)) (now : Nat)
    (hty : s.scanType ∈ scanTypeOptions) (hne : jsTrim s.target ≠ "") :
    (handleScan s outcome now).2 =
      some ⟨"POST", "/scan", jsTrim s.target, s.scanType⟩ ∧
    (s.scanType = "nmap" ∨ s.scanType = "nuclei" ∨ s.scanType = "nikto") ∧
    ((handleScan s (.success r) now).1).scanResults = r.getD [] ∧
    ((handleScan s (.success none) now).1).scanResults = [] := by
  refine ⟨?_, ?_, ?_, ?_⟩
  · unfold handleScan
    rw [if_neg hne]
  · simpa [scanTypeOptions] using hty
  · exact congrArg ClientState.scanResults
      (handleScan_success_state s r now hne).1
  · exact congrArg ClientState.scanResults
      (handleScan_success_state s none now hne).1

theorem handleScan_request_contract_witness :
    (handleScan { initialState with target := " example.com " }
        (FetchOutcome.httpError 500) 3).2 =
      some ⟨"POST", "/scan", "example.com", "nmap"⟩ ∧
    ("nmap" = "nmap" ∨ "nmap" = "nuclei" ∨ "nmap" = "nikto") ∧
    ((handleScan { initialState with target := " example.com " }
        (.success none) 3).1).scanResults =
      (none : Option (List ScanResult)).getD [] ∧
    ((handleScan { initialState with target := " example.com " }
        (.success none) 3).1).scanResults = [] :=
  handleScan_request_contract { initialState with target := " example.com " }
    (FetchOutcome.httpError 500) none 3 (by decide) (by decide)

/-- Claim C4 counterexample: a pure network error is converted into a
successful-looking result — populated `scanResults` and a recorded
`lastScanInfo` — rather than propagating as a structured error. -/
theorem backend_error_masked_counterexample :
    ((handleScan { initialState with target := "example.com" }
        FetchOutcome.networkError 0).1).scanResults =
      generateDemoResults "nmap" ∧
    ((handleScan { initialState with target := "example.com" }
        FetchOutcome.networkError 0).1).scanResults ≠ [] ∧
    ((handleScan { initialState with target := "example.com" }
        FetchOutcome.networkError 0).1).lastScanInfo =
      some ⟨"nmap", "example.com", 0⟩ :=
  ⟨by decide, by decide, by decide⟩

/-- Claim C4 as amended: the client swallows every backend-call failure
into demo results; the only error signals are the destructive toast with
its human-readable message and the cleared `backendConnected` flag — no
structured error reaches the result state. -/
theorem backend_error_signals (s : ClientState) (outcome : FetchOutcome)
    (now : Nat) (hfail : fetchFails outcome = true)
    (hne : jsTrim s.target ≠ "") :
    ((handleScan s outcome now).1).scanResults =
      generateDemoResults s.scanType ∧
    ((handleScan s outcome now).1).backendConnected = false ∧
    ((handleScan s outcome now).1).toasts =
      s.toasts ++ [⟨"Backend unavailable",
        "Using demo data. Connect your backend for real scans.",
        some "destructive"⟩] := by
  rw [(handleScan_catch_state s outcome now hfail hne).1]
  exact ⟨rfl, rfl, rfl⟩

theorem backend_error_signals_witness :
    ((handleScan { initialState with target := "example.com" }
        FetchOutcome.timeoutAbort 9).1).scanResults =
      generateDemoResults "nmap" ∧
    ((handleScan { initialState with target := "example.com" }
        FetchOutcome.timeoutAbort 9).1).backendConnected = false ∧
    ((handleScan { initialState with target := "example.com" }
        FetchOutcome.timeoutAbort 9).1).toasts =
      [] ++ [⟨"Backend unavailable",
        "Using demo data. Connect your backend for real scans.",
        some "destructive"⟩] :=
  backend_error_signals { initialState with target := "example.com" }
    FetchOutcome.timeoutAbort 9 (by decide) (by decide)

/-- Claim C5 counterexample: the submitted target keeps its upper-case
letters — `handleScan` only trims, it never lower-cases the host. -/
theorem submitted_target_not_lowercased :
    (handleScan { initialState with target := " Example.COM " }
        (FetchOutcome.success none) 0).2 =
      some ⟨"POST", "/scan", "Example.COM", "nmap"⟩ ∧
    lowerStr "Example.COM" = "example.com" ∧
    "Example.COM" ≠ "example.com" :=
  ⟨by decide, by decide, by decide⟩

/-- Claim C5 as amended: the submitted target is the raw input trimmed
of surrounding whitespace, with no case change, and trimming is
idempotent, so validating an already-trimmed target round-trips to the
same string. -/
theorem submitted_target_trimmed (s : ClientState) (outcome : FetchOutcome)
    (now : Nat) (hne : jsTrim s.target ≠ "") :
    (handleScan s outcome now).2 =
      some ⟨"POST", "/scan", jsTrim s.target, s.scanType⟩ ∧
    ((handleScan s outcome now).1).lastScanInfo =
      some ⟨s.scanType, jsTrim s.target, now⟩ ∧
    jsTrim (jsTrim s.target) = jsTrim s.target := by
  refine ⟨?_, ?_, jsTrim_idem s.target⟩
  · unfold handleScan
    rw [if_neg hne]
  · cases outcome with
    | success r =>
        exact congrArg ClientState.lastScanInfo
          (handleScan_success_state s r now hne).1
    | httpError status =>
        exact congrArg ClientState.lastScanInfo
          (handleScan_catch_state s (.httpError status) now rfl hne).1
    | networkError =>
        exact congrArg ClientState.lastScanInfo
          (handleScan_catch_state s .networkError now rfl hne).1
    | timeoutAbort =>
        exact congrArg ClientState.lastScanInfo
          (handleScan_catch_state s .timeoutAbort now rfl hne).1

theorem submitted_target_trimmed_witness :
    (handleScan { initialState with target := "  host-1.example  " }
        FetchOutcome.networkError 4).2 =
      some ⟨"POST", "/scan", "host-1.example", "nmap"⟩ ∧
    ((handleScan { initialState with target := "  host-1.example  " }
        FetchOutcome.networkError 4).1).lastScanInfo =
      some ⟨"nmap", "host-1.example", 4⟩ ∧
    jsTrim "host-1.example" = "host-1.example" :=
  submitted_target_trimmed { initialState with target := "  host-1.example  " }
    FetchOutcome.networkError 4 (by decide)

/-- A record populating exactly the port-scan fields. -/
def portShape (r : ScanResult) : Bool :=
  r.port.isSome && r.state.isSome && r.service.isSome &&
    r.severity.isNone && r.url.isNone && r.description.isNone &&
    r.endpoint.isNone && r.title.isNone

/-- A record populating exactly the web-vulnerability fields. -/
def webShape (r : ScanResult) : Bool :=
  r.title.isSome && r.severity.isSome && r.url.isSome &&
    r.description.isSome && r.port.isNone && r.state.isNone &&
    r.service.isNone && r.endpoint.isNone

/-- A record populating exactly the misconfiguration fields. -/
def misconfigShape (r : ScanResult) : Bool :=
  r.endpoint.isSome && r.description.isSome && r.port.isNone &&
    r.state.isNone && r.service.isNone && r.severity.isNone &&
    r.url.isNone && r.title.isNone

/-- A well-typed `ScanResult` value populating port-scan fields and
web-vulnerability fields at once. -/
def mixedRecord : ScanResult :=
  { port := some "22", state := some "open", service := some "ssh",
    title := some "Mixed finding", severity := some "high" }

/-- Claim C6 counterexample: the result type is a single struct of
optional fields, not a tagged union — it admits a record that mixes
port-scan and web-vulnerability fields, so the no-mixing invariant is
not enforced by the type. -/
theorem scanResult_mixed_record_counterexample :
    mixedRecord.port.isSome = true ∧ mixedRecord.state.isSome = true ∧
    mixedRecord.title.isSome = true ∧ mixedRecord.severity.isSome = true ∧
    portShape mixedRecord = false ∧ webShape mixedRecord = false := by
  decide

/-- Claim C6 as amended: every record `generateDemoResults` produces
keeps to exactly one scan kind's fields — port-scan records populate
only port, state and service, web-vulnerability records only title,
severity, url and description, misconfiguration records only endpoint
and description — although the declared result type is a single struct
of optional fields that does not itself forbid mixing. -/
theorem demoResults_shape_pure :
    (generateDemoResults "nmap").all portShape = true ∧
    (generateDemoResults "nuclei").all webShape = true ∧
    (generateDemoResults "nikto").all misconfigShape = true := by
  decide

/-- Claim C7: the end-to-end port-scan case — a request for target
example.com of kind nmap resolves to the port-scan adapter, and parsing
a stub tool's emissions of 22/open/ssh then 80/open/http yields exactly
the two findings with integer ports in range, the Open state, the
tool's emission order preserved, and the tool exit code recorded in the
metadata. -/
theorem portScan_end_to_end :
    scanKindOf "nmap" = some ScanKind.PortScan ∧
    portScanParse ["22/open/ssh", "80/open/http"] 0 "example.com" 0 0 =
      { findings := [⟨22, .Open, "ssh"⟩, ⟨80, .Open, "http"⟩]
        scanKind := .PortScan
        target := "example.com"
        startedAt := 0
        durationMs := 0
        toolExitCode := 0 } ∧
    ((portScanParse ["22/open/ssh", "80/open/http"] 0
        "example.com" 0 0).findings.all
      (fun f => decide (1 ≤ f.port) && decide (f.port ≤ 65535))) = true := by
  exact ⟨rfl, rfl, by decide⟩

/-- A web-vulnerability finding whose severity field is absent. -/
def unratedFinding : ScanResult :=
  { title := some "Directory Listing Enabled",
    url := some "https://example.com/assets/",
    description := some "Directory listing is enabled" }

/-- Claim C8 counterexample: a web-vulnerability finding with a missing
severity is classified by the default gray branch, not as Low — its
badge class differs from the one an explicit low severity gets. -/
theorem missing_severity_not_low_counterexample :
    unratedFinding.severity = none ∧
    severityClassOf unratedFinding =
      "bg-gray-500/20 text-gray-300 border-gray-500/30" ∧
    getSeverityColor "low" =
      "bg-blue-500/20 text-blue-300 border-blue-500/30" ∧
    severityClassOf unratedFinding ≠ getSeverityColor "low" := by
  exact ⟨by decide, by decide, by decide, by decide⟩

/-- Claim C8 as amended: a finding whose severity field is missing is
rendered without error — the empty-string fallback lands in
`getSeverityColor`'s default branch, giving the gray classification,
which differs from the one an explicit low severity gets. -/
theorem missing_severity_default_gray (r : ScanResult)
    (h : r.severity = none) :
    severityClassOf r = "bg-gray-500/20 text-gray-300 border-gray-500/30" ∧
    severityClassOf r ≠ getSeverityColor "low" := by
  unfold severityClassOf
  rw [h]
  exact ⟨rfl, by decide⟩

theorem missing_severity_default_gray_witness :
    severityClassOf { description := some "no severity given" } =
      "bg-gray-500/20 text-gray-300 border-gray-500/30" ∧
    severityClassOf { description := some "no severity given" } ≠
      getSeverityColor "low" :=
  missing_severity_default_gray { description := some "no severity given" }
    rfl

/-- Claim C9: `generateDemoResults` is a pure function of the scan-type
string alone — in particular the fallback results of `handleScan` do
not depend on the target or the timestamp — and for every type outside
nmap, nuclei and nikto it returns the empty list. -/
theorem generateDemoResults_pure_of_type :
    (∀ ty : String, ty ≠ "nmap" → ty ≠ "nuclei" → ty ≠ "nikto" →
      generateDemoResults ty = []) ∧
    (∀ s₁ s₂ : ClientState, ∀ outcome : FetchOutcome, ∀ now₁ now₂ : Nat,
      s₁.scanType = s₂.scanType → fetchFails outcome = true →
      jsTrim s₁.target ≠ "" → jsTrim s₂.target ≠ "" →
      ((handleScan s₁ outcome now₁).1).scanResults =
        ((handleScan s₂ outcome now₂).1).scanResults) := by
  constructor
  · intro ty h1 h2 h3
    unfold generateDemoResults
    split <;> simp_all
  · intro s₁ s₂ outcome now₁ now₂ hty hfail h1 h2
    rw [(handleScan_catch_state s₁ outcome now₁ hfail h1).1,
      (handleScan_catch_state s₂ outcome now₂ hfail h2).1]
    show generateDemoResults s₁.scanType = generateDemoResults s₂.scanType
    rw [hty]

theorem generateDemoResults_pure_of_type_witness :
    generateDemoResults "zzz" = [] ∧
    ((handleScan { initialState with target := "alpha" }
        FetchOutcome.timeoutAbort 1).1).scanResults =
      ((handleScan { initialState with target := "beta.example" }
        FetchOutcome.timeoutAbort 2).1).scanResults :=
  ⟨generateDemoResults_pure_of_type.1 "zzz" (by decide) (by decide)
      (by decide),
   generateDemoResults_pure_of_type.2
     { initialState with target := "alpha" }
     { initialState with target := "beta.example" }
     FetchOutcome.timeoutAbort 1 2 rfl rfl (by decide) (by decide)⟩

/-- Claim C10: every execution of `handleScan` with a non-empty trimmed
target ends with `isScanning` reset to false, on the success path and on
every failure path alike, so the UI never stays stuck in the scanning
state after a scan attempt completes. -/
theorem handleScan_clears_isScanning (s : ClientState)
    (outcome : FetchOutcome) (now : Nat) (hne : jsTrim s.target ≠ "") :
    ((handleScan s outcome now).1).isScanning = false := by
  unfold handleScan
  rw [if_neg hne]

/-- A component state caught mid-scan, used to witness the reset. -/
def scanningState : ClientState :=
  { initialState with target := "example.com", isScanning := true }

theorem handleScan_clears_isScanning_witness :
    ((handleScan scanningState FetchOutcome.networkError 0).1).isScanning =
      false :=
  handleScan_clears_isScanning scanningState FetchOutcome.networkError 0
    (by decide)

end ScanSense
